import Mathlib

/-!
Shallow embedding of the statistical inference engine of
`src/services/statistics.js` (experiment platform), together with theorems
settling the spec claims about it.

Two embeddings are given:

* `Stats`: the functions over exact real numbers `ℝ`, mirroring the source
  line by line (JavaScript `number` idealised as a real; `Math.pow(v, 2)`
  rendered as `v * v`).
* `JS`: the same pipeline over `JS.JNum`, a JavaScript-number model with
  `NaN` and signed infinities over exact reals, used for the claims about
  NaN propagation (division by zero etc.).
-/

namespace Stats

/-- Source: `mean(arr)` — `if (arr.length === 0) return 0;` then
`arr.reduce((sum, val) => sum + val, 0) / arr.length`. -/
noncomputable def mean (arr : List ℝ) : ℝ :=
  if arr.length = 0 then 0
  else arr.foldl (· + ·) 0 / (arr.length : ℝ)

/-- Source: `standardDeviation(arr)` — returns 0 for length < 2, else
Bessel-corrected sample standard deviation. `Math.pow(val - avg, 2)` is
`(val - avg) * (val - avg)`. -/
noncomputable def standardDeviation (arr : List ℝ) : ℝ :=
  if arr.length < 2 then 0
  else
    let avg := mean arr
    let squaredDiffs := arr.map (fun val => (val - avg) * (val - avg))
    let variance := squaredDiffs.foldl (· + ·) 0 / ((arr.length : ℝ) - 1)
    Real.sqrt variance

/-- Source: the Lanczos constant `g = 7` in `gammaLn`. -/
def lanczosG : ℕ := 7

/-- Source: the fixed 9-entry coefficient table `c` in `gammaLn`. -/
noncomputable def lanczosC : List ℝ :=
  [0.99999999999980993, 676.5203681218851, -1259.1392167224028,
   771.32342877765313, -176.61502916214059, 12.507343278686905,
   -0.13857109526572012, 9.9843695780195716e-6, 1.5056327351493116e-7]

/-- Source: the non-recursive branch of `gammaLn` (the `z -= 1` direct
Lanczos series: `for (let i = 1; i < g + 2; i++) x += c[i] / (z + i);`,
then `t = z + g + 0.5` and the closing formula). -/
noncomputable def gammaLnSeries (z : ℝ) : ℝ :=
  let z' := z - 1
  let x := (List.range' 1 8).foldl
    (fun acc i => acc + lanczosC.getD i 0 / (z' + (i : ℝ))) (lanczosC.getD 0 0)
  let t := z' + (lanczosG : ℝ) + 0.5
  0.5 * Real.log (2 * Real.pi) + (z' + 0.5) * Real.log t - t + Real.log x

/-- Source: `gammaLn(z)` — reflection formula
`Math.log(Math.PI / Math.sin(Math.PI * z)) - gammaLn(1 - z)` when
`z < 0.5`, otherwise the direct series. The recursion terminates because
the recursive call receives `1 - z > 0.5`. -/
noncomputable def gammaLn (z : ℝ) : ℝ :=
  if z < 0.5 then Real.log (Real.pi / Real.sin (Real.pi * z)) - gammaLn (1 - z)
  else gammaLnSeries z
termination_by ((if z < 0.5 then 1 else 0 : ℕ))
decreasing_by
  rename_i h
  rw [if_pos h, if_neg (by linarith)]
  exact Nat.zero_lt_one

/-- Source: `epsilon = 1e-10` in `betaCF`. -/
noncomputable def epsCF : ℝ := 1e-10

/-- Source: the clamp `if (Math.abs(d) < epsilon) d = epsilon;` applied in
`betaCF` to every denominator `c`/`d` before its reciprocal is used. -/
noncomputable def clampEps (v : ℝ) : ℝ :=
  if |v| < epsCF then epsCF else v

/-- Running state of the `betaCF` loop: the Lentz quantities `c`, `d`
(after reciprocation) and the accumulated fraction value `h`. -/
structure CFState where
  c : ℝ
  d : ℝ
  h : ℝ

/-- Source: one iteration of the `betaCF` `for` loop (one even step then one
odd step), returning the new state together with the odd-step `del`. -/
noncomputable def betaCFStep (x a b : ℝ) (i : ℕ) (s : CFState) : CFState × ℝ :=
  let qab := a + b
  let qap := a + 1
  let qam := a - 1
  let m2 : ℝ := 2 * (i : ℝ)
  let aa1 := ((i : ℝ) * (b - (i : ℝ)) * x) / ((qam + m2) * (a + m2))
  let d1 := clampEps (1 + aa1 * s.d)
  let c1 := clampEps (1 + aa1 / s.c)
  let d1' := 1 / d1
  let h1 := s.h * (d1' * c1)
  let aa2 := (-(a + (i : ℝ)) * (qab + (i : ℝ)) * x) / ((a + m2) * (qap + m2))
  let d2 := clampEps (1 + aa2 * d1')
  let c2 := clampEps (1 + aa2 / c1)
  let d2' := 1 / d2
  let del := d2' * c2
  (⟨c2, d2', h1 * del⟩, del)

/-- Source: the `betaCF` `for (let i = 1; i <= maxIterations; i++)` loop.
`fuel` is the number of iterations still allowed, `i` the current loop
index; the loop stops early when `Math.abs(del - 1) < epsilon` and
otherwise returns the current `h` once the fuel (100 at the top call) is
exhausted. -/
noncomputable def betaCFGo (x a b : ℝ) : ℕ → ℕ → CFState → ℝ
  | _, 0, s => s.h
  | i, fuel + 1, s =>
    let r := betaCFStep x a b i s
    if |r.2 - 1| < epsCF then r.1.h
    else betaCFGo x a b (i + 1) fuel r.1

/-- Number of loop iterations `betaCFGo` actually executes. -/
noncomputable def betaCFGoSteps (x a b : ℝ) : ℕ → ℕ → CFState → ℕ
  | _, 0, _ => 0
  | i, fuel + 1, s =>
    let r := betaCFStep x a b i s
    if |r.2 - 1| < epsCF then 1
    else 1 + betaCFGoSteps x a b (i + 1) fuel r.1

/-- Source: the initial state of `betaCF`: `c = 1`,
`d = 1 - (qab * x) / qap` clamped then reciprocated, `h = d`. -/
noncomputable def betaCFInit (x a : ℝ) (b : ℝ) : CFState :=
  let qab := a + b
  let qap := a + 1
  let d0 := 1 / clampEps (1 - (qab * x) / qap)
  ⟨1, d0, d0⟩

/-- Source: `betaCF(x, a, b)` — Lentz's algorithm with
`maxIterations = 100`. -/
noncomputable def betaCF (x a b : ℝ) : ℝ :=
  betaCFGo x a b 1 100 (betaCFInit x a b)

/-- Number of loop iterations executed by `betaCF x a b`. -/
noncomputable def betaCFSteps (x a b : ℝ) : ℕ :=
  betaCFGoSteps x a b 1 100 (betaCFInit x a b)

/-- Source: `incompleteBeta(x, a, b)` — short-circuits at `x === 0` and
`x === 1`, otherwise the continued-fraction expansion with the symmetry
reflection at `x < (a + 1) / (a + b + 2)`. -/
noncomputable def incompleteBeta (x a b : ℝ) : ℝ :=
  if x = 0 then 0
  else if x = 1 then 1
  else
    let bt := Real.exp (gammaLn (a + b) - gammaLn a - gammaLn b
      + a * Real.log x + b * Real.log (1 - x))
    if x < (a + 1) / (a + b + 2) then bt * betaCF x a b / a
    else 1 - bt * betaCF (1 - x) b a / b

/-- Source: `tCDF(t, df)` — `x = df / (df + t * t)`, result
`1 - 0.5 * incompleteBeta(x, df / 2, 0.5)`. -/
noncomputable def tCDF (t df : ℝ) : ℝ :=
  1 - 0.5 * incompleteBeta (df / (df + t * t)) (df / 2) 0.5

/-- Result record of `independentTTest`; `isSignificant` is the
proposition `pValue < 0.05` the source stores as a boolean. -/
structure TestResult where
  mean1 : ℝ
  mean2 : ℝ
  std1 : ℝ
  std2 : ℝ
  tStatistic : ℝ
  degreesOfFreedom : ℝ
  pValue : ℝ
  isSignificant : Prop
  effectSize : ℝ

/-- Source: `independentTTest(sample1, sample2)` — Welch's t-test.
`Math.pow(v, 2)` is rendered `v * v`. Note the source declares exactly two
parameters and hard-codes the `0.05` threshold. -/
noncomputable def independentTTest (sample1 sample2 : List ℝ) : TestResult :=
  let n1 : ℝ := sample1.length
  let n2 : ℝ := sample2.length
  let mean1 := mean sample1
  let mean2 := mean sample2
  let std1 := standardDeviation sample1
  let std2 := standardDeviation sample2
  let var1 := std1 * std1
  let var2 := std2 * std2
  let se := Real.sqrt (var1 / n1 + var2 / n2)
  let tStatistic := (mean1 - mean2) / se
  let numerator := (var1 / n1 + var2 / n2) * (var1 / n1 + var2 / n2)
  let denominator := (var1 / n1) * (var1 / n1) / (n1 - 1)
    + (var2 / n2) * (var2 / n2) / (n2 - 1)
  let df := numerator / denominator
  let pValue := 2 * (1 - tCDF |tStatistic| df)
  { mean1 := mean1
    mean2 := mean2
    std1 := std1
    std2 := std2
    tStatistic := tStatistic
    degreesOfFreedom := df
    pValue := pValue
    isSignificant := pValue < 0.05
    effectSize := (mean1 - mean2) / Real.sqrt ((var1 + var2) / 2) }

/-- Model of the JavaScript call `independentTTest(sample1, sample2, alpha)`
with a third argument: the source function declares only two parameters, so
JavaScript ignores the extra argument and the call behaves exactly like
`independentTTest(sample1, sample2)`. -/
noncomputable def independentTTestAlpha (sample1 sample2 : List ℝ)
    (_alpha : ℝ) : TestResult :=
  independentTTest sample1 sample2

end Stats

namespace JS

/-- A JavaScript `number` modelled over exact reals: `NaN`, signed
infinity (`inf true` is `+Infinity`), or a finite real. Negative zero is
identified with zero (the source never distinguishes them). -/
inductive JNum where
  | nan : JNum
  | inf : Bool → JNum
  | fin : ℝ → JNum

open JNum

/-- JavaScript unary minus. -/
noncomputable def jneg : JNum → JNum
  | nan => nan
  | inf s => inf (!s)
  | fin a => fin (-a)

/-- JavaScript addition. -/
noncomputable def jadd : JNum → JNum → JNum
  | nan, _ => nan
  | _, nan => nan
  | inf s, inf t => if s = t then inf s else nan
  | inf s, fin _ => inf s
  | fin _, inf t => inf t
  | fin a, fin b => fin (a + b)

/-- JavaScript subtraction. -/
noncomputable def jsub (x y : JNum) : JNum := jadd x (jneg y)

/-- JavaScript multiplication. -/
noncomputable def jmul : JNum → JNum → JNum
  | nan, _ => nan
  | _, nan => nan
  | inf s, inf t => inf (s = t)
  | inf s, fin a => if a = 0 then nan else if 0 < a then inf s else inf (!s)
  | fin a, inf t => if a = 0 then nan else if 0 < a then inf t else inf (!t)
  | fin a, fin b => fin (a * b)

/-- JavaScript division. -/
noncomputable def jdiv : JNum → JNum → JNum
  | nan, _ => nan
  | _, nan => nan
  | inf _, inf _ => nan
  | inf s, fin b => if 0 ≤ b then inf s else inf (!s)
  | fin _, inf _ => fin 0
  | fin a, fin b =>
    if b = 0 then (if a = 0 then nan else if 0 < a then inf true else inf false)
    else fin (a / b)

/-- JavaScript `Math.abs`. -/
noncomputable def jabs : JNum → JNum
  | nan => nan
  | inf _ => inf true
  | fin a => fin |a|

/-- JavaScript `Math.sqrt`. -/
noncomputable def jsqrt : JNum → JNum
  | nan => nan
  | inf s => if s then inf true else nan
  | fin a => if a < 0 then nan else fin (Real.sqrt a)

/-- JavaScript `Math.exp`. -/
noncomputable def jexp : JNum → JNum
  | nan => nan
  | inf s => if s then inf true else fin 0
  | fin a => fin (Real.exp a)

/-- JavaScript `Math.log`. -/
noncomputable def jlog : JNum → JNum
  | nan => nan
  | inf s => if s then inf true else nan
  | fin a => if a < 0 then nan else if a = 0 then inf false else fin (Real.log a)

/-- JavaScript `Math.sin`. -/
noncomputable def jsin : JNum → JNum
  | nan => nan
  | inf _ => nan
  | fin a => fin (Real.sin a)

/-- JavaScript `<` comparison (false whenever an operand is `NaN`). -/
def jlt : JNum → JNum → Prop
  | nan, _ => False
  | _, nan => False
  | inf s, inf t => s = false ∧ t = true
  | inf s, fin _ => s = false
  | fin _, inf t => t = true
  | fin a, fin b => a < b

/-- JavaScript `Math.pow(v, 2)` as used by the source. -/
noncomputable def jpow2 (x : JNum) : JNum := jmul x x

end JS

namespace JS

open JNum Classical

/-- Source `mean` over JavaScript numbers: the `reduce` runs `jadd` over the
elements, then divides by the length. -/
noncomputable def meanJ (arr : List ℝ) : JNum :=
  if arr.length = 0 then fin 0
  else jdiv ((arr.map fin).foldl jadd (fin 0)) (fin (arr.length : ℝ))

/-- Source `standardDeviation` over JavaScript numbers. -/
noncomputable def standardDeviationJ (arr : List ℝ) : JNum :=
  if arr.length < 2 then fin 0
  else
    let avg := meanJ arr
    let squaredDiffs := arr.map (fun val => jpow2 (jsub (fin val) avg))
    let variance :=
      jdiv (squaredDiffs.foldl jadd (fin 0)) (jsub (fin (arr.length : ℝ)) (fin 1))
    jsqrt variance

/-- Source: direct Lanczos series branch of `gammaLn`, over JavaScript
numbers (`Math.PI` is the finite number `π`). -/
noncomputable def gammaLnSeriesJ (z : JNum) : JNum :=
  let z' := jsub z (fin 1)
  let x := (List.range' 1 8).foldl
    (fun acc i => jadd acc (jdiv (fin (Stats.lanczosC.getD i 0)) (jadd z' (fin (i : ℝ)))))
    (fin (Stats.lanczosC.getD 0 0))
  let t := jadd (jadd z' (fin (Stats.lanczosG : ℝ))) (fin 0.5)
  jadd
    (jsub
      (jadd (jmul (fin 0.5) (jlog (jmul (fin 2) (fin Real.pi))))
        (jmul (jadd z' (fin 0.5)) (jlog t)))
      t)
    (jlog x)

/-- Source `gammaLn` over JavaScript numbers: reflection branch when
`z < 0.5` (false for `NaN`), else the direct series. -/
noncomputable def gammaLnJ (z : JNum) : JNum :=
  if jlt z (fin 0.5) then
    jsub (jlog (jdiv (fin Real.pi) (jsin (jmul (fin Real.pi) z)))) (gammaLnJ (jsub (fin 1) z))
  else gammaLnSeriesJ z
termination_by ((if jlt z (fin 0.5) then 1 else 0 : ℕ))
decreasing_by
  rename_i h
  rw [if_pos h, if_neg]
  · exact Nat.zero_lt_one
  · cases z with
    | nan => exact h.elim
    | inf s =>
      have hs : s = false := h
      subst hs
      simp [jsub, jadd, jneg, jlt]
    | fin r =>
      have hr : r < 0.5 := h
      simp only [jsub, jneg, jadd, jlt]
      intro hc
      norm_num at hc hr
      linarith

/-- State of the `betaCF` loop over JavaScript numbers. -/
structure CFStateJ where
  c : JNum
  d : JNum
  h : JNum

/-- Source clamp `if (Math.abs(d) < epsilon) d = epsilon;` over JavaScript
numbers (the comparison is false for `NaN`, which is therefore kept). -/
noncomputable def clampJ (v : JNum) : JNum :=
  if jlt (jabs v) (fin Stats.epsCF) then fin Stats.epsCF else v

/-- One iteration (even then odd step) of the `betaCF` loop over JavaScript
numbers, returning the new state and the odd-step `del`. -/
noncomputable def betaCFStepJ (x a b : JNum) (i : ℕ) (s : CFStateJ) : CFStateJ × JNum :=
  let qab := jadd a b
  let qap := jadd a (fin 1)
  let qam := jsub a (fin 1)
  let m2 := jmul (fin 2) (fin (i : ℝ))
  let aa1 := jdiv (jmul (jmul (fin (i : ℝ)) (jsub b (fin (i : ℝ)))) x)
    (jmul (jadd qam m2) (jadd a m2))
  let d1 := clampJ (jadd (fin 1) (jmul aa1 s.d))
  let c1 := clampJ (jadd (fin 1) (jdiv aa1 s.c))
  let d1' := jdiv (fin 1) d1
  let h1 := jmul s.h (jmul d1' c1)
  let aa2 := jdiv (jmul (jmul (jneg (jadd a (fin (i : ℝ)))) (jadd qab (fin (i : ℝ)))) x)
    (jmul (jadd a m2) (jadd qap m2))
  let d2 := clampJ (jadd (fin 1) (jmul aa2 d1'))
  let c2 := clampJ (jadd (fin 1) (jdiv aa2 c1))
  let d2' := jdiv (fin 1) d2
  let del := jmul d2' c2
  (⟨c2, d2', jmul h1 del⟩, del)

/-- Source `betaCF` loop over JavaScript numbers; stops early when
`Math.abs(del - 1) < epsilon` (false for `NaN`). -/
noncomputable def betaCFGoJ (x a b : JNum) : ℕ → ℕ → CFStateJ → JNum
  | _, 0, s => s.h
  | i, fuel + 1, s =>
    let r := betaCFStepJ x a b i s
    if jlt (jabs (jsub r.2 (fin 1))) (fin Stats.epsCF) then r.1.h
    else betaCFGoJ x a b (i + 1) fuel r.1

/-- Source `betaCF` over JavaScript numbers. -/
noncomputable def betaCFJ (x a b : JNum) : JNum :=
  let qab := jadd a b
  let qap := jadd a (fin 1)
  let d0 := jdiv (fin 1) (clampJ (jsub (fin 1) (jdiv (jmul qab x) qap)))
  betaCFGoJ x a b 1 100 ⟨fin 1, d0, d0⟩

/-- Source `incompleteBeta` over JavaScript numbers: the `===` short
circuits compare against the finite numbers 0 and 1 (false for `NaN`). -/
noncomputable def incompleteBetaJ (x a b : JNum) : JNum :=
  if x = fin 0 then fin 0
  else if x = fin 1 then fin 1
  else
    let bt := jexp (jadd
      (jadd (jsub (jsub (gammaLnJ (jadd a b)) (gammaLnJ a)) (gammaLnJ b))
        (jmul a (jlog x)))
      (jmul b (jlog (jsub (fin 1) x))))
    if jlt x (jdiv (jadd a (fin 1)) (jadd (jadd a b) (fin 2))) then
      jdiv (jmul bt (betaCFJ x a b)) a
    else jsub (fin 1) (jdiv (jmul bt (betaCFJ (jsub (fin 1) x) b a)) b)

/-- Source `tCDF` over JavaScript numbers. -/
noncomputable def tCDFJ (t df : JNum) : JNum :=
  jsub (fin 1)
    (jmul (fin 0.5)
      (incompleteBetaJ (jdiv df (jadd df (jmul t t))) (jdiv df (fin 2)) (fin 0.5)))

/-- Result record of `independentTTest` over JavaScript numbers. -/
structure TestResultJ where
  mean1 : JNum
  mean2 : JNum
  std1 : JNum
  std2 : JNum
  tStatistic : JNum
  degreesOfFreedom : JNum
  pValue : JNum
  isSignificant : Prop
  effectSize : JNum

/-- Source `independentTTest` over JavaScript numbers. -/
noncomputable def independentTTestJ (sample1 sample2 : List ℝ) : TestResultJ :=
  let n1 : JNum := fin (sample1.length : ℝ)
  let n2 : JNum := fin (sample2.length : ℝ)
  let mean1 := meanJ sample1
  let mean2 := meanJ sample2
  let std1 := standardDeviationJ sample1
  let std2 := standardDeviationJ sample2
  let var1 := jmul std1 std1
  let var2 := jmul std2 std2
  let se := jsqrt (jadd (jdiv var1 n1) (jdiv var2 n2))
  let tStatistic := jdiv (jsub mean1 mean2) se
  let numerator := jpow2 (jadd (jdiv var1 n1) (jdiv var2 n2))
  let denominator := jadd (jdiv (jpow2 (jdiv var1 n1)) (jsub n1 (fin 1)))
    (jdiv (jpow2 (jdiv var2 n2)) (jsub n2 (fin 1)))
  let df := jdiv numerator denominator
  let pValue := jmul (fin 2) (jsub (fin 1) (tCDFJ (jabs tStatistic) df))
  { mean1 := mean1
    mean2 := mean2
    std1 := std1
    std2 := std2
    tStatistic := tStatistic
    degreesOfFreedom := df
    pValue := pValue
    isSignificant := jlt pValue (fin 0.05)
    effectSize := jdiv (jsub mean1 mean2) (jsqrt (jdiv (jadd var1 var2) (fin 2))) }

end JS

namespace JS

open JNum

@[simp] theorem jneg_nan : jneg nan = nan := rfl

@[simp] theorem jadd_nan_left (y : JNum) : jadd nan y = nan := by cases y <;> rfl

@[simp] theorem jadd_nan_right (x : JNum) : jadd x nan = nan := by cases x <;> rfl

@[simp] theorem jsub_nan_left (y : JNum) : jsub nan y = nan := by cases y <;> rfl

@[simp] theorem jsub_nan_right (x : JNum) : jsub x nan = nan := by cases x <;> rfl

@[simp] theorem jmul_nan_left (y : JNum) : jmul nan y = nan := by cases y <;> rfl

@[simp] theorem jmul_nan_right (x : JNum) : jmul x nan = nan := by cases x <;> rfl

@[simp] theorem jdiv_nan_left (y : JNum) : jdiv nan y = nan := by cases y <;> rfl

@[simp] theorem jdiv_nan_right (x : JNum) : jdiv x nan = nan := by cases x <;> rfl

@[simp] theorem jabs_nan : jabs nan = nan := rfl

@[simp] theorem jsqrt_nan : jsqrt nan = nan := rfl

@[simp] theorem jexp_nan : jexp nan = nan := rfl

@[simp] theorem jlog_nan : jlog nan = nan := rfl

@[simp] theorem jsin_nan : jsin nan = nan := rfl

@[simp] theorem jpow2_nan : jpow2 nan = nan := rfl

@[simp] theorem jlt_nan_left (y : JNum) : ¬ jlt nan y := by cases y <;> exact fun h => h

@[simp] theorem jlt_nan_right (x : JNum) : ¬ jlt x nan := by
  cases x <;> exact fun h => h

@[simp] theorem jadd_fin (a b : ℝ) : jadd (fin a) (fin b) = fin (a + b) := rfl

@[simp] theorem jsub_fin (a b : ℝ) : jsub (fin a) (fin b) = fin (a - b) := by
  show fin (a + -b) = fin (a - b)
  rw [sub_eq_add_neg]

@[simp] theorem jmul_fin (a b : ℝ) : jmul (fin a) (fin b) = fin (a * b) := rfl

@[simp] theorem jpow2_fin (a : ℝ) : jpow2 (fin a) = fin (a * a) := rfl

@[simp] theorem jdiv_fin_zero_zero : jdiv (fin 0) (fin 0) = nan := by
  simp [jdiv]

theorem jdiv_fin_of_ne (a : ℝ) {b : ℝ} (hb : b ≠ 0) :
    jdiv (fin a) (fin b) = fin (a / b) := by
  simp [jdiv, hb]

@[simp] theorem jdiv_fin_one (a : ℝ) : jdiv (fin a) (fin 1) = fin a := by
  rw [jdiv_fin_of_ne a one_ne_zero, div_one]

theorem standardDeviationJ_single (c : ℝ) : standardDeviationJ [c] = fin 0 := by
  simp [standardDeviationJ]

end JS

/-- C5: for finite numeric input every engine function is total (each Lean
embedding above is a total function, so no exception is ever raised), and
when either sample has length exactly 1 the Welch–Satterthwaite
degrees-of-freedom computation divides by `(n - 1) = 0`, producing `NaN`
which propagates so that `pValue` is `NaN` and `isSignificant` is false. -/
theorem C5_singleton_sample_nan_propagation (c : ℝ) (s2 : List ℝ) :
    (JS.independentTTestJ [c] s2).degreesOfFreedom = JS.JNum.nan
    ∧ (JS.independentTTestJ [c] s2).pValue = JS.JNum.nan
    ∧ ¬ (JS.independentTTestJ [c] s2).isSignificant
    ∧ (JS.independentTTestJ s2 [c]).degreesOfFreedom = JS.JNum.nan
    ∧ (JS.independentTTestJ s2 [c]).pValue = JS.JNum.nan
    ∧ ¬ (JS.independentTTestJ s2 [c]).isSignificant := by
  refine ⟨?_, ?_, ?_, ?_, ?_, ?_⟩ <;>
    simp [JS.independentTTestJ, JS.standardDeviationJ_single, JS.tCDFJ,
      JS.incompleteBetaJ]

namespace Stats

theorem welch_t_swap (m1 m2 p q : ℝ) :
    (m1 - m2) / Real.sqrt (p + q) = -((m2 - m1) / Real.sqrt (q + p)) := by
  rw [add_comm q p]
  ring

theorem welch_abs_t_swap (m1 m2 p q : ℝ) :
    |(m1 - m2) / Real.sqrt (p + q)| = |(m2 - m1) / Real.sqrt (q + p)| := by
  rw [add_comm q p, abs_div, abs_div, abs_sub_comm]

theorem welch_df_swap (p q m k : ℝ) :
    (p + q) * (p + q) / (p * p / m + q * q / k)
      = (q + p) * (q + p) / (q * q / k + p * p / m) := by
  ring

end Stats

/-- C1: swapping the two samples negates `tStatistic` and leaves `pValue`
and `isSignificant` unchanged. -/
theorem C1_swap_symmetry (A B : List ℝ) :
    (Stats.independentTTest A B).tStatistic = -(Stats.independentTTest B A).tStatistic
    ∧ (Stats.independentTTest A B).pValue = (Stats.independentTTest B A).pValue
    ∧ ((Stats.independentTTest A B).isSignificant ↔
        (Stats.independentTTest B A).isSignificant) := by
  simp only [Stats.independentTTest]
  refine ⟨Stats.welch_t_swap _ _ _ _, ?_, ?_⟩
  · rw [Stats.welch_abs_t_swap (Stats.mean A) (Stats.mean B),
      Stats.welch_df_swap]
  · rw [Stats.welch_abs_t_swap (Stats.mean A) (Stats.mean B),
      Stats.welch_df_swap]

/-- C4: `independentTTest` computes the Welch t-statistic, the
Welch–Satterthwaite degrees of freedom and the effect size by the stated
formulas, with `var` the squared sample standard deviation. -/
theorem C4_welch_formulas (s1 s2 : List ℝ) :
    (Stats.independentTTest s1 s2).tStatistic =
      (Stats.mean s1 - Stats.mean s2) /
        Real.sqrt ((Stats.standardDeviation s1) ^ 2 / (s1.length : ℝ)
          + (Stats.standardDeviation s2) ^ 2 / (s2.length : ℝ))
    ∧ (Stats.independentTTest s1 s2).degreesOfFreedom =
      ((Stats.standardDeviation s1) ^ 2 / (s1.length : ℝ)
          + (Stats.standardDeviation s2) ^ 2 / (s2.length : ℝ)) ^ 2 /
        (((Stats.standardDeviation s1) ^ 2 / (s1.length : ℝ)) ^ 2 / ((s1.length : ℝ) - 1)
          + ((Stats.standardDeviation s2) ^ 2 / (s2.length : ℝ)) ^ 2 / ((s2.length : ℝ) - 1))
    ∧ (Stats.independentTTest s1 s2).effectSize =
      (Stats.mean s1 - Stats.mean s2) /
        Real.sqrt (((Stats.standardDeviation s1) ^ 2
          + (Stats.standardDeviation s2) ^ 2) / 2) := by
  simp [Stats.independentTTest, pow_two]

/-- C2 (amended): `independentTTest` declares no `alpha` parameter; a third
argument is ignored by JavaScript and `isSignificant` is always compared
against the hard-coded threshold `0.05`. -/
theorem C2_amended_fixed_threshold (s1 s2 : List ℝ) (alpha : ℝ) :
    (Stats.independentTTestAlpha s1 s2 alpha).isSignificant ↔
      (Stats.independentTTestAlpha s1 s2 alpha).pValue < 0.05 :=
  Iff.rfl

namespace Stats

theorem mean_one_three : mean [1, 3] = 2 := by
  norm_num [mean, List.foldl]

theorem std_one_three : standardDeviation [1, 3] = Real.sqrt 2 := by
  norm_num [standardDeviation, mean, List.foldl, List.map]

theorem var_one_three : standardDeviation [1, 3] * standardDeviation [1, 3] = 2 := by
  rw [std_one_three]
  exact Real.mul_self_sqrt (by norm_num)

theorem pValue_one_three : (independentTTest [1, 3] [1, 3]).pValue = 1 := by
  simp only [independentTTest]
  rw [var_one_three]
  norm_num [tCDF, incompleteBeta, mean_one_three]

end Stats

/-- C2 (counterexample): the claim `isSignificant = (pValue < alpha)` for a
caller-supplied third argument `alpha` fails at `sample1 = sample2 = [1,3]`,
`alpha = 2`: the source ignores the third argument, `pValue = 1`, so
`isSignificant` is false while `pValue < alpha` holds. -/
theorem C2_counterexample_alpha_ignored :
    ¬ ((Stats.independentTTestAlpha [1, 3] [1, 3] 2).isSignificant ↔
       (Stats.independentTTestAlpha [1, 3] [1, 3] 2).pValue < 2) := by
  intro hiff
  have h2 : (Stats.independentTTestAlpha [1, 3] [1, 3] 2).pValue < 2 := by
    show (Stats.independentTTest [1, 3] [1, 3]).pValue < 2
    rw [Stats.pValue_one_three]
    norm_num
  have h3 : (Stats.independentTTest [1, 3] [1, 3]).pValue < 0.05 := hiff.mpr h2
  rw [Stats.pValue_one_three] at h3
  norm_num at h3

/-- C8: `mean` returns 0 on the empty sequence and otherwise the arithmetic
mean; `standardDeviation` returns 0 for length < 2 and otherwise the
Bessel-corrected sample standard deviation. -/
theorem C8_mean_std_formulas (l : List ℝ) :
    Stats.mean [] = 0
    ∧ (l ≠ [] → Stats.mean l = l.sum / (l.length : ℝ))
    ∧ (l.length < 2 → Stats.standardDeviation l = 0)
    ∧ (2 ≤ l.length →
        Stats.standardDeviation l =
          Real.sqrt ((l.map (fun x => (x - l.sum / (l.length : ℝ)) ^ 2)).sum
            / ((l.length : ℝ) - 1))) := by
  refine ⟨by simp [Stats.mean], ?_, ?_, ?_⟩
  · intro h
    rw [Stats.mean, if_neg (by simpa using h), List.sum_eq_foldl]
  · intro h
    rw [Stats.standardDeviation, if_pos h]
  · intro h
    have hne : l ≠ [] := fun he => by subst he; simp at h
    have hm : Stats.mean l = l.sum / (l.length : ℝ) := by
      rw [Stats.mean, if_neg (by simpa using hne), List.sum_eq_foldl]
    rw [Stats.standardDeviation, if_neg (by omega)]
    simp only [hm, pow_two, List.sum_eq_foldl]

/-- C8 witness at concrete inputs. -/
theorem C8_witness :
    (Stats.mean [1, 2, 3] = ([1, 2, 3] : List ℝ).sum / (([1, 2, 3] : List ℝ).length : ℝ))
    ∧ Stats.standardDeviation [5] = 0
    ∧ Stats.standardDeviation [1, 2, 3]
        = Real.sqrt ((([1, 2, 3] : List ℝ).map
            (fun x => (x - ([1, 2, 3] : List ℝ).sum / (([1, 2, 3] : List ℝ).length : ℝ)) ^ 2)).sum
          / ((([1, 2, 3] : List ℝ).length : ℝ) - 1)) :=
  ⟨(C8_mean_std_formulas [1, 2, 3]).2.1 (by simp),
   (C8_mean_std_formulas [5]).2.2.1 (by norm_num),
   (C8_mean_std_formulas [1, 2, 3]).2.2.2 (by norm_num)⟩

/-- C9: for `a, b > 0`, `incompleteBeta` short-circuits to exactly 0 at
`x = 0` and exactly 1 at `x = 1`, without touching the gamma prefactor. -/
theorem C9_incompleteBeta_boundary (a b : ℝ) (ha : 0 < a) (hb : 0 < b) :
    Stats.incompleteBeta 0 a b = 0 ∧ Stats.incompleteBeta 1 a b = 1 := by
  refine ⟨?_, ?_⟩
  · rw [Stats.incompleteBeta, if_pos rfl]
  · rw [Stats.incompleteBeta, if_neg one_ne_zero, if_pos rfl]

/-- C9 witness at `a = b = 1`. -/
theorem C9_witness :
    Stats.incompleteBeta 0 1 1 = 0 ∧ Stats.incompleteBeta 1 1 1 = 1 :=
  C9_incompleteBeta_boundary 1 1 one_pos one_pos

/-- C10: `gammaLn` takes the reflection branch only when `z < 0.5`; the
argument `1 - z` of the inner call then fails the `< 0.5` test, so the
recursion bottoms out in the direct series at depth one, and `gammaLn` is a
total function. -/
theorem C10_gammaLn_depth_one (z : ℝ) :
    (¬ z < 0.5 → Stats.gammaLn z = Stats.gammaLnSeries z)
    ∧ (z < 0.5 → ¬ (1 - z) < 0.5)
    ∧ (z < 0.5 →
        Stats.gammaLn z
          = Real.log (Real.pi / Real.sin (Real.pi * z)) - Stats.gammaLnSeries (1 - z)) := by
  refine ⟨?_, ?_, ?_⟩
  · intro h
    rw [Stats.gammaLn, if_neg h]
  · intro h hc
    norm_num at h hc
    linarith
  · intro h
    rw [Stats.gammaLn, if_pos h, Stats.gammaLn,
      if_neg (show ¬ (1 - z) < 0.5 by intro hc; norm_num at h hc; linarith)]

/-- C10 witness at `z = 1` (direct branch) and `z = 0` (reflection). -/
theorem C10_witness :
    Stats.gammaLn 1 = Stats.gammaLnSeries 1
    ∧ Stats.gammaLn 0
        = Real.log (Real.pi / Real.sin (Real.pi * 0)) - Stats.gammaLnSeries (1 - 0) :=
  ⟨(C10_gammaLn_depth_one 1).1 (by norm_num),
   (C10_gammaLn_depth_one 0).2.2 (by norm_num)⟩

namespace Stats

theorem betaCFGoSteps_le_fuel (x a b : ℝ) :
    ∀ fuel i s, betaCFGoSteps x a b i fuel s ≤ fuel := by
  intro fuel
  induction fuel with
  | zero => intro i s; simp [betaCFGoSteps]
  | succ n ih =>
    intro i s
    simp only [betaCFGoSteps]
    split
    · omega
    · have := ih (i + 1) (betaCFStep x a b i s).1
      omega

theorem clampEps_lb (v : ℝ) : epsCF ≤ |clampEps v| := by
  rw [clampEps]
  split
  · rw [abs_of_pos (show (0 : ℝ) < epsCF by norm_num [epsCF])]
  · exact le_of_not_lt (by assumption)

end Stats

/-- C6: the `betaCF` loop runs at most 100 iterations, every denominator is
clamped to magnitude at least `1e-10` before reciprocation, the loop stops
as soon as `|del - 1| < 1e-10`, and on fuel exhaustion the current
best-effort `h` is returned (no error path exists). -/
theorem C6_betaCF_loop_policy (x a b : ℝ) :
    Stats.betaCF x a b = Stats.betaCFGo x a b 1 100 (Stats.betaCFInit x a b)
    ∧ Stats.betaCFSteps x a b ≤ 100
    ∧ (∀ v : ℝ, Stats.epsCF ≤ |Stats.clampEps v|)
    ∧ (∀ i fuel s, |(Stats.betaCFStep x a b i s).2 - 1| < Stats.epsCF →
        Stats.betaCFGo x a b i (fuel + 1) s = (Stats.betaCFStep x a b i s).1.h)
    ∧ (∀ i s, Stats.betaCFGo x a b i 0 s = s.h) := by
  refine ⟨rfl, Stats.betaCFGoSteps_le_fuel x a b 100 1 _, Stats.clampEps_lb, ?_,
    fun i s => rfl⟩
  intro i fuel s h
  simp only [Stats.betaCFGo]
  rw [if_pos h]

/-- C6 witness: at `x = 0`, `a = b = 1` the first `del` is exactly 1, so the
loop stops in the first iteration. -/
theorem C6_witness :
    Stats.betaCFSteps 0 1 1 ≤ 100
    ∧ Stats.betaCFGo 0 1 1 1 3 ⟨1, 1, 1⟩ = (Stats.betaCFStep 0 1 1 1 ⟨1, 1, 1⟩).1.h :=
  ⟨(C6_betaCF_loop_policy 0 1 1).2.1,
   (C6_betaCF_loop_policy 0 1 1).2.2.2.1 1 2 ⟨1, 1, 1⟩ (by
      norm_num [Stats.betaCFStep, Stats.clampEps, Stats.epsCF])⟩
